import Mathlib

/-!
Verification of the realtime donation-overlay engine of the FE-ZADONATE
repository (overlay pages `src/pages/donate/history.tsx` — the `GiftPage`
media overlay — and `src/pages/donate/text.tsx`, both TextPage variants).

The browser runtime is single-threaded: WebSocket `onmessage` handlers and
timer callbacks run to completion one at a time.  We therefore embed the
overlay as a state machine: one record per page holding the React state
(the `donationStateRef` mirror always agrees with the state once React has
flushed, so state and ref coincide between events), and one transition
function per event source (`processMsg` for a parsed WebSocket message,
`tick` for one firing of the 1-second progress interval).  State updates
and the synchronous effects they trigger (starting/stopping the interval
and the hard-stop timeout, creating/destroying the YouTube player) are
folded into a single transition, since React flushes them before the next
event is handled.

One closure detail is load-bearing: the WebSocket effect that installs
`ws.onmessage` has an empty dependency array, so the handler closure is
created once at mount.  It reads `donationMessage` / `remainingTime`
through the live ref, but it reads `currentDonationId` directly - and the
mount render's value of that state is null, forever.  The embedding
models this captured value as `closureCurrentDonationId` and uses it
exactly where the source reads the closure variable (the visibility-event
guard and the reset-previous-video guard), while the state field
`currentDonationId` is still written by the handler as in the source.

JavaScript numbers are modelled as `JsNum` (a rational or NaN); the
amounts and durations appearing here are exact in ℚ.  Platform string
primitives used by the handler (`trim`, `split('\n')`, `includes('\n')`,
`parseInt`) are given explicit executable models (`jsTrim`, `jsSplitNl`,
`jsIncludesNl`, `jsParseInt`).  `JSON.parse` plus the duck typing of the
message record is abstracted as a parameter `parse : String → Option Msg`
(a parse failure is `none`).
-/

/-- A JavaScript number: either NaN or an exact rational. -/
inductive JsNum where
  | nan : JsNum
  | num : ℚ → JsNum
deriving DecidableEq, Repr

namespace JsNum

/-- JavaScript `x > 0` (false when NaN). -/
def gtZero : JsNum → Bool
  | nan => false
  | num q => decide (0 < q)

/-- JavaScript truthiness of a number (`0` and `NaN` are falsy). -/
def truthy : JsNum → Bool
  | nan => false
  | num q => decide (q ≠ 0)

end JsNum

/-- The guard `data.amount !== undefined && data.amount > 0` on an optional field. -/
def jsGtZero : Option JsNum → Bool
  | some n => n.gtZero
  | none => false

/-- Numeric value of an optional field (an absent field behaves as NaN
once it reaches `isNaN`). -/
def optJsNum : Option JsNum → JsNum
  | some n => n
  | none => JsNum.nan

/-- JavaScript truthiness of an optional string field (absent and `""`
are falsy). -/
def truthyStr : Option String → Bool
  | some s => decide (s ≠ "")
  | none => false

/-! ### Platform string primitives -/

/-- Whitespace test used by `trim` / `parseInt`. -/
def isWsChar (c : Char) : Bool := c.isWhitespace

/-- Drop trailing characters satisfying `p` (helper for `trimCharList`). -/
def rdropWs (l : List Char) : List Char :=
  ((l.reverse.dropWhile isWsChar)).reverse

/-- Model of `String.prototype.trim` on the character list. -/
def trimCharList (l : List Char) : List Char :=
  rdropWs (l.dropWhile isWsChar)

/-- JavaScript `s.trim()`. -/
def jsTrim (s : String) : String := ⟨trimCharList s.data⟩

/-- Split a character list at every newline (JavaScript
`split('\n')` semantics: `n+1` groups for `n` newlines, empty groups
kept). -/
def splitNlChars : List Char → List (List Char)
  | [] => [[]]
  | c :: rest =>
    match splitNlChars rest with
    | [] => [[]]
    | g :: gs => if c = '\n' then [] :: g :: gs else (c :: g) :: gs

/-- JavaScript `s.split('\n')`. -/
def jsSplitNl (s : String) : List String :=
  (splitNlChars s.data).map fun l => ⟨l⟩

/-- JavaScript `s.includes('\n')`. -/
def jsIncludesNl (s : String) : Bool := s.data.contains '\n'

/-- Digits-prefix value: `none` when the list does not start with a
digit (JavaScript `parseInt` yields NaN then). -/
def parseDigits (l : List Char) : Option ℕ :=
  let ds := l.takeWhile Char.isDigit
  if ds = [] then none
  else some (ds.foldl (fun acc c => acc * 10 + (c.toNat - 48)) 0)

/-- JavaScript `parseInt(s, 10)`: skip leading whitespace, optional
sign, longest digit prefix; `none` models NaN. -/
def jsParseInt (s : String) : Option ℤ :=
  match s.data.dropWhile isWsChar with
  | '-' :: rest => (parseDigits rest).map fun n => -(n : ℤ)
  | '+' :: rest => (parseDigits rest).map fun n => (n : ℤ)
  | l => (parseDigits l).map fun n => (n : ℤ)

/-- Does `pat` occur as a contiguous substring of `l`?  (Model of a
regex like `/youtube\.com/` applied with `.test`, which searches the
whole string for the literal.) -/
def containsSub (pat : List Char) : List Char → Bool
  | [] => decide (pat = [])
  | c :: rest => pat.isPrefixOf (c :: rest) || containsSub pat rest

/-- Substring test on strings. -/
def containsSubstr (s pat : String) : Bool := containsSub pat.data s.data

/-! ### Helper functions of the overlay pages (translated from source) -/

/-- Source `isYouTubeUrl`: `/youtube\.com|youtu\.be/.test(url)`. -/
def isYouTubeUrl (url : String) : Bool :=
  containsSubstr url "youtube.com" || containsSubstr url "youtu.be"

/-- Source `isInstagramUrl`: `/instagram\.com/.test(url)`. -/
def isInstagramUrl (url : String) : Bool := containsSubstr url "instagram.com"

/-- Source `isTikTokUrl`: `/tiktok\.com/.test(url)`. -/
def isTikTokUrl (url : String) : Bool := containsSubstr url "tiktok.com"

/-- Executable model of `Math.max` on two numbers (agrees with `max`,
see `maxQ_eq_max`). -/
def maxQ (a b : ℚ) : ℚ := if a ≤ b then b else a

theorem maxQ_eq_max (a b : ℚ) : maxQ a b = max a b := by
  unfold maxQ
  by_cases h : a ≤ b
  · rw [if_pos h, max_eq_right h]
  · rw [if_neg h, max_eq_left (le_of_not_le h)]

/-- Source `calculateDisplayDuration` (identical in `history.tsx` and
`text.tsx`): default 10 000 ms when the amount is NaN or non-positive,
else `max(10000, (amount / 1000) * 10 * 1000)`. -/
def calculateDisplayDuration (amount : JsNum) : ℚ :=
  match amount with
  | JsNum.nan => 10000
  | JsNum.num a =>
    if a ≤ 0 then 10000
    else maxQ 10000 (a / 1000 * 10 * 1000)

/-! ### The wire message (`DonationMessage` interface) -/

/-- Field `targetTime?: string | number`. -/
inductive StrOrNum where
  | str : String → StrOrNum
  | num : JsNum → StrOrNum
deriving DecidableEq, Repr

/-- A parsed WebSocket message (the `DonationMessage` / `TextMessage`
interfaces; all fields except `type` are optional). -/
structure Msg where
  type : String
  id : Option String := none
  donorName : Option String := none
  amount : Option JsNum := none
  message : Option String := none
  mediaUrl : Option String := none
  mediaType : Option String := none
  startTime : Option JsNum := none
  targetTime : Option StrOrNum := none
  duration : Option JsNum := none
  visible : Option Bool := none
  paymentMethod : Option String := none
  paymentType : Option String := none
  plisioCurrency : Option String := none
  plisioAmount : Option String := none
deriving DecidableEq, Repr

/-! ### GiftPage state -/

/-- The `donationMessage` React state of `GiftPage`. -/
structure GiftDonation where
  id : String
  donorName : String
  amount : ℚ
  message : Option String
  paymentMethod : Option String
  paymentType : Option String
  plisioCurrency : Option String
  plisioAmount : Option String
deriving DecidableEq, Repr

/-- Whole `GiftPage` component state: the React state hooks plus the
liveness of the two donation timers and of the YouTube player handle
(the refs `donationTimerRef`, `progressIntervalRef`,
`youtubePlayerRef`). -/
structure GiftState where
  mediaUrl : Option String
  mediaType : Option String
  startTime : ℚ
  donationMessage : Option GiftDonation
  currentDonationId : Option String
  isVisible : Bool
  remainingTime : ℚ
  totalDuration : ℚ
  videoDuration : ℚ
  pauseStartTime : Option ℚ
  donationTimer : Bool
  progressInterval : Bool
  youtubePlayer : Bool
deriving DecidableEq, Repr

/-- The state of a freshly mounted `GiftPage` (all hooks at their
`useState` initial values, no timers, no player). -/
def initialGiftState : GiftState where
  mediaUrl := none
  mediaType := none
  startTime := 0
  donationMessage := none
  currentDonationId := none
  isVisible := true
  remainingTime := 0
  totalDuration := 0
  videoDuration := 0
  pauseStartTime := none
  donationTimer := false
  progressInterval := false
  youtubePlayer := false

/-- The value of `currentDonationId` captured by the `ws.onmessage`
closure: the WebSocket effect has dependency array `[]`, so the closure
keeps the mount render's value - null - for the component's whole life
(only `donationStateRef` is read through a ref). -/
def closureCurrentDonationId : Option String := none

/-- The test `currentDonationId && currentDonationId !== data.id` (the guard of
the reset-previous-video branch in the `donation` and `media` cases).
It reads the mount closure's `currentDonationId`, which is permanently
null, so the guard never passes and the reset branch is dead code in the
program. -/
def resetGuard (m : Msg) : Bool :=
  match closureCurrentDonationId with
  | some cid => decide (cid ≠ "") && decide (m.id ≠ some cid)
  | none => false

/-- Message truncation `data.message && data.message.length > 160 ? data.message.substring(0, 160) : data.message`. -/
def truncMsg (cap : ℕ) (o : Option String) : Option String :=
  o.map fun t => if cap < t.length then t.take cap else t

/-- The `parsedStartTime` computation of the `media` case: prefer
`targetTime` (string parsed with `parseInt`, or number), falling back to
the legacy `startTime` only when `targetTime` is absent; invalid values
leave 0. -/
def parsedStartTime (m : Msg) : ℚ :=
  match m.targetTime with
  | some (StrOrNum.str st) =>
    match jsParseInt st with
    | some k => if 0 ≤ k then (k : ℚ) else 0
    | none => 0
  | some (StrOrNum.num (JsNum.num q)) => if 0 ≤ q then q else 0
  | some (StrOrNum.num JsNum.nan) => 0
  | none =>
    match m.startTime with
    | some (JsNum.num q) => if 0 ≤ q then q else 0
    | _ => 0

/-- Platform detection of the `media` case: auto-detect from the URL,
else use the provided `mediaType`, else `"image"` (`|| "image"` also
replaces an empty string). -/
def detectMediaType (url : String) (m : Msg) : String :=
  if isYouTubeUrl url then "youtube"
  else if isInstagramUrl url then "instagram"
  else if isTikTokUrl url then "tiktok"
  else
    match m.mediaType with
    | some t => if t = "" then "image" else t
    | none => "image"

/-- The fallback `data.duration || calculateDisplayDuration(data.amount)`: the
backend duration wins whenever it is truthy (non-zero, non-NaN —
including negative values), otherwise the amount-based fallback. -/
def chosenDuration (m : Msg) : ℚ :=
  match m.duration with
  | some (JsNum.num d) =>
    if d = 0 then calculateDisplayDuration (optJsNum m.amount) else d
  | _ => calculateDisplayDuration (optJsNum m.amount)

/-- One step of the `GiftPage` `ws.onmessage` switch on a parsed
message.  `now` is `Date.now()` at the instant the handler runs.  The
second component is `true` when the handler executed the early `return`
of the admission-control discard (which aborts the remainder of the
frame), `false` when it fell through (`break`). -/
def processMsg (now : ℚ) (s : GiftState) (m : Msg) : GiftState × Bool :=
  if m.type = "donation" then
    if truthyStr m.donorName && jsGtZero m.amount && truthyStr m.id then
      -- admission control: ignore while the current donation is active
      if s.donationMessage.isSome && decide (0 < s.remainingTime) then
        (s, true)
      else
        let s1 :=
          if resetGuard m then
            { s with youtubePlayer := false, donationTimer := false,
                     progressInterval := false }
          else s
        let dur := chosenDuration m
        ({ s1 with
            totalDuration := dur
            remainingTime := dur
            donationMessage := some
              { id := (m.id.getD "")
                donorName := (m.donorName.getD "")
                amount := (match m.amount with
                           | some (JsNum.num a) => a
                           | _ => 0)
                message := truncMsg 160 m.message
                paymentMethod := m.paymentMethod
                paymentType := m.paymentType
                plisioCurrency := m.plisioCurrency
                plisioAmount := m.plisioAmount }
            currentDonationId := m.id
            isVisible := true
            pauseStartTime := none
            donationTimer := true
            progressInterval := true }, false)
    else (s, false)
  else if m.type = "media" then
    if truthyStr m.mediaUrl && truthyStr m.id then
      -- admission control: ignore while the current donation is active
      if s.donationMessage.isSome && decide (0 < s.remainingTime) then
        (s, true)
      else
        let s1 := if resetGuard m then { s with youtubePlayer := false } else s
        let u := m.mediaUrl.getD ""
        let mt := detectMediaType u m
        ({ s1 with
            mediaUrl := some u
            currentDonationId := m.id
            isVisible := true
            pauseStartTime := none
            startTime := parsedStartTime m
            mediaType := some mt
            youtubePlayer := decide (mt = "youtube") }, false)
    else (s, false)
  else if m.type = "clear_queue" then
    ({ mediaUrl := none
       mediaType := none
       startTime := 0
       donationMessage := none
       currentDonationId := none
       isVisible := true
       remainingTime := 0
       totalDuration := 0
       videoDuration := 0
       pauseStartTime := none
       donationTimer := false
       progressInterval := false
       youtubePlayer := false }, false)
  else if m.type = "visibility" then
    if truthyStr m.id && decide (m.id = closureCurrentDonationId) then
      let s1 := { s with isVisible := m.visible.getD true }
      if m.visible = some true then
        match s.pauseStartTime with
        | some p =>
          ({ s1 with remainingTime := s1.remainingTime + (now - p),
                     pauseStartTime := none }, false)
        | none => (s1, false)
      else
        ({ s1 with pauseStartTime := some now }, false)
    else (s, false)
  else (s, false)

/-- A sequence of messages, each handled in its own frame at its own
timestamp. -/
def processMsgs (s : GiftState) (evs : List (ℚ × Msg)) : GiftState :=
  evs.foldl (fun st e => (processMsg e.1 st e.2).1) s

/-- One firing of the 1-second progress interval: no countdown while
paused; otherwise decrement by a fixed 1000 ms (floored at 0) and, on
reaching 0, perform the full close (destroy the YouTube player for
YouTube media, clear all display state; the effect cleanup triggered by
`donationMessage` becoming null also clears the hard-stop timer). -/
def tick (s : GiftState) : GiftState :=
  if !s.isVisible then s
  else
    let newTime := max 0 (s.remainingTime - 1000)
    if newTime ≤ 0 then
      { s with
          progressInterval := false
          youtubePlayer :=
            if s.mediaType = some "youtube" then false else s.youtubePlayer
          mediaUrl := none
          mediaType := none
          startTime := 0
          donationMessage := none
          currentDonationId := none
          remainingTime := 0
          totalDuration := 0
          videoDuration := 0
          isVisible := true
          pauseStartTime := none
          donationTimer := false }
    else { s with remainingTime := newTime }

/-- Decision taken when a media player reports end of playback. -/
inductive EndAction where
  | teardown : EndAction
  | replay : ℚ → EndAction
deriving DecidableEq, Repr

/-- Source `handleEnded` for the native `<video>` element: tear the video down
unless the donation is still active, in which case restart from 0. -/
def handleVideoEnded (s : GiftState) : EndAction :=
  if s.donationMessage.isNone || decide (s.totalDuration ≤ 0)
      || decide (s.remainingTime ≤ 0) then
    EndAction.teardown
  else
    EndAction.replay 0

/-- The `onStateChange` ENDED branch of the YouTube player: tear the
player down unless the donation is still active, in which case seek to
the configured start offset (or 0) and replay. -/
def youtubeEnded (s : GiftState) : EndAction :=
  if s.donationMessage.isNone || decide (s.totalDuration ≤ 0)
      || decide (s.remainingTime ≤ 0) then
    EndAction.teardown
  else
    EndAction.replay (if 0 < s.startTime then s.startTime else 0)

/-- The overlay renders nothing when there is no content, or while the
alert is paused (`!isVisible`). -/
def hiddenRender (s : GiftState) : Bool :=
  (s.mediaUrl.isNone && s.donationMessage.isNone) || !s.isVisible

/-- Wall-clock instant at which the per-second countdown of a visible
alert reaches zero, assuming drift-free 1-second ticks. -/
def expiryAt (now : ℚ) (s : GiftState) : ℚ := now + s.remainingTime

/-! ### Frame normalisation (shared `ws.onmessage` prologue) -/

/-- The list `messages` built by the handler: trim the raw frame, bail
out on empty, split on newline when one is present (keeping only
segments that are non-empty after trimming), else the single trimmed
frame. -/
def frameSegments (raw : String) : List String :=
  if jsTrim raw = "" then []
  else if jsIncludesNl (jsTrim raw) then
    (jsSplitNl (jsTrim raw)).filter fun msg => jsTrim msg ≠ ""
  else [jsTrim raw]

/-- The `for (const message of messages)` loop: trim each segment, skip
empties, parse (a `JSON.parse` failure is skipped by the
catch-and-continue), dispatch in order; an admission-control discard
(`return`) aborts the remainder of the frame.  The state is threaded
from segment to segment (the sequential reading); under React 18
batching the ref snapshot read by a later segment of the same frame can
lag, but the split/order/parse-isolation properties proved below do not
depend on which reading is taken. -/
def processSegs (parse : String → Option Msg) (now : ℚ) :
    GiftState → List String → GiftState
  | s, [] => s
  | s, msg :: rest =>
    let trimmed := jsTrim msg
    if trimmed = "" then processSegs parse now s rest
    else
      match parse trimmed with
      | none => processSegs parse now s rest
      | some m =>
        match processMsg now s m with
        | (s1, true) => s1
        | (s1, false) => processSegs parse now s1 rest

/-- Full handling of one raw WebSocket frame. -/
def processFrame (parse : String → Option Msg) (now : ℚ)
    (s : GiftState) (raw : String) : GiftState :=
  processSegs parse now s (frameSegments raw)

/-! ### TextPage state (both variants of `text.tsx`) -/

/-- The `textMessage` React state of the text overlays (the handler
always stores a string message, defaulting to `""`). -/
structure TextDonation where
  id : String
  donorName : String
  amount : ℚ
  message : String
deriving DecidableEq, Repr

/-- Component state of a text overlay (either variant). -/
structure TextState where
  textMessage : Option TextDonation
  currentDonationId : Option String
  isVisible : Bool
  remainingTime : ℚ
  totalDuration : ℚ
  pauseStartTime : Option ℚ
deriving DecidableEq, Repr

/-- Freshly mounted text overlay. -/
def initialTextState : TextState where
  textMessage := none
  currentDonationId := none
  isVisible := true
  remainingTime := 0
  totalDuration := 0
  pauseStartTime := none

/-- Shared `visibility` handling of both text overlays.  As in
`GiftPage`, the guard compares `data.id` against the mount closure's
`currentDonationId` (null), so it never passes in the program. -/
def textVisibility (now : ℚ) (s : TextState) (m : Msg) : TextState :=
  if truthyStr m.id && decide (m.id = closureCurrentDonationId) then
    let s1 := { s with isVisible := m.visible.getD true }
    if m.visible = some true then
      match s.pauseStartTime with
      | some p =>
        { s1 with remainingTime := s1.remainingTime + (now - p),
                  pauseStartTime := none }
      | none => s1
    else
      { s1 with pauseStartTime := some now }
  else s

/-- The `ws.onmessage` of the first `TextPage` variant: admission control
against the in-flight alert, a fixed `finalDuration = 10000`, message
capped at 250 characters.  The second component records the early
`return` of the discard. -/
def processTextMsg (now : ℚ) (s : TextState) (m : Msg) : TextState × Bool :=
  if m.type = "text" then
    if truthyStr m.donorName && jsGtZero m.amount && truthyStr m.id then
      if s.textMessage.isSome && decide (0 < s.remainingTime) then
        (s, true)
      else
        let msg0 := m.message.getD ""
        let msg1 := if 250 < msg0.length then msg0.take 250 else msg0
        ({ s with
            totalDuration := 10000
            remainingTime := 10000
            textMessage := some
              { id := m.id.getD ""
                donorName := m.donorName.getD ""
                amount := (match m.amount with
                           | some (JsNum.num a) => a
                           | _ => 0)
                message := msg1 }
            currentDonationId := m.id
            isVisible := true
            pauseStartTime := none }, false)
    else (s, false)
  else if m.type = "visibility" then
    (textVisibility now s m, false)
  else (s, false)

/-- The `ws.onmessage` of the second (TTS) `TextPage` variant: no
admission control, `finalDuration` is the hard-coded 10000 regardless of
the backend `duration` and of `calculateDisplayDuration`. -/
def processTextMsgTTS (now : ℚ) (s : TextState) (m : Msg) : TextState :=
  if m.type = "text" then
    if truthyStr m.donorName && jsGtZero m.amount && truthyStr m.id then
      let msg0 := m.message.getD ""
      let msg1 := if 250 < msg0.length then msg0.take 250 else msg0
      { s with
          totalDuration := 10000
          remainingTime := 10000
          textMessage := some
            { id := m.id.getD ""
              donorName := m.donorName.getD ""
              amount := (match m.amount with
                         | some (JsNum.num a) => a
                         | _ => 0)
              message := msg1 }
          currentDonationId := m.id
          isVisible := true
          pauseStartTime := none }
    else s
  else if m.type = "visibility" then
    textVisibility now s m
  else s

/-! ### Reconnecting transport (`connectWebSocket` of `GiftPage`)

One WebSocket at a time is referenced by `wsRef`; `reconnectTimeoutRef`
holds at most one timer id.  After a scheduled reconnect fires, the ref
still holds the stale id until `ws.onopen` clears it, so the ref cell is
modelled with three states.  Sockets are kept oldest-first; `connect`
appends a fresh connecting socket after closing the previous one if it
is open.  A socket failure delivers its `error` and `close` events in
one task (error first, with the socket already closed from the
handler's point of view), which the `closeEvt` transition performs
atomically. -/

/-- Lifecycle phase of one WebSocket. -/
inductive SockPhase where
  | connecting : SockPhase
  | opened : SockPhase
  | closingPh : SockPhase
  | closed : SockPhase
deriving DecidableEq, Repr

/-- Contents of `reconnectTimeoutRef`: empty, a live (pending) timer
with its delay in ms, or the stale id of a timer that already fired. -/
inductive RefCell where
  | empty : RefCell
  | live : ℕ → RefCell
  | stale : RefCell
deriving DecidableEq, Repr

/-- Transport state: every socket ever created (oldest first; the last
is `wsRef.current`), the timer ref cell, and the number of actually
pending reconnect timers. -/
structure TransportState where
  socks : List SockPhase
  ref : RefCell
  pending : ℕ
deriving DecidableEq, Repr

/-- The scheduling step `if (!reconnectTimeoutRef.current) reconnectTimeoutRef.current = setTimeout(connectWebSocket, delay)`. -/
def applySchedule (delay : ℕ) (s : TransportState) : TransportState :=
  if s.ref = RefCell.empty then
    { s with ref := RefCell.live delay, pending := s.pending + 1 }
  else s

/-- Body of `connectWebSocket`: close the existing socket if (and only
if) it is currently OPEN, then create a new connecting socket. -/
def connectT (s : TransportState) : TransportState :=
  let socks1 :=
    match s.socks.getLast? with
    | some SockPhase.opened => s.socks.dropLast ++ [SockPhase.closingPh]
    | _ => s.socks
  { s with socks := socks1 ++ [SockPhase.connecting] }

/-- Events delivered to the transport: `openEvt i` (socket `i` fires
`onopen`), `closeEvt i code withErr` (socket `i` fires `onclose` with
the given close code, preceded in the same task by `onerror` when
`withErr`), and `timerFire` (the pending reconnect timer runs
`connectWebSocket`). -/
inductive TEvent where
  | openEvt : ℕ → TEvent
  | closeEvt : ℕ → ℕ → Bool → TEvent
  | timerFire : TEvent
deriving DecidableEq, Repr

/-- Is this phase still able to deliver socket events? -/
def activePhase (p : SockPhase) : Bool :=
  p = SockPhase.connecting || p = SockPhase.opened || p = SockPhase.closingPh

/-- One event of the transport.  `onopen` clears the pending timer;
`onerror` schedules a 1-second reconnect when the socket is already
CLOSING/CLOSED and no timer is referenced; `onclose` schedules a
3-second reconnect unless the close code is the intentional 1000 or a
timer is already referenced; the timer firing re-runs
`connectWebSocket` (leaving its stale id in the ref). -/
def stepT (s : TransportState) (e : TEvent) : TransportState :=
  match e with
  | TEvent.openEvt i =>
    match s.socks[i]? with
    | some SockPhase.connecting =>
      let s1 := { s with socks := s.socks.set i SockPhase.opened }
      match s1.ref with
      | RefCell.empty => s1
      | RefCell.live _ => { s1 with ref := RefCell.empty, pending := s1.pending - 1 }
      | RefCell.stale => { s1 with ref := RefCell.empty }
    | _ => s
  | TEvent.closeEvt i code withErr =>
    match s.socks[i]? with
    | some ph =>
      if activePhase ph then
        let s1 := if withErr then applySchedule 1000 s else s
        let s2 := { s1 with socks := s1.socks.set i SockPhase.closed }
        if code ≠ 1000 then applySchedule 3000 s2 else s2
      else s
    | none => s
  | TEvent.timerFire =>
    match s.ref with
    | RefCell.live _ =>
      connectT { s with ref := RefCell.stale, pending := s.pending - 1 }
    | _ => s

/-- Mounting the page: `connectWebSocket()` runs once; if the
`new WebSocket` constructor throws, the catch schedules a 3-second
retry instead. -/
def initT (ctorThrows : Bool) : TransportState :=
  if ctorThrows then applySchedule 3000 ⟨[], RefCell.empty, 0⟩
  else connectT ⟨[], RefCell.empty, 0⟩

/-- The transport state after a trace of events from mount. -/
def runT (ctorThrows : Bool) (evs : List TEvent) : TransportState :=
  evs.foldl stepT (initT ctorThrows)

/-- Number of sockets currently in the OPEN state. -/
def openedCount (s : TransportState) : ℕ :=
  s.socks.countP fun p => p = SockPhase.opened

/-- Is this socket CONNECTING or OPEN? -/
def inflightPh (p : SockPhase) : Bool :=
  p = SockPhase.connecting || p = SockPhase.opened

/-- Number of sockets currently in flight (CONNECTING or OPEN). -/
def inflightCount (s : TransportState) : ℕ :=
  s.socks.countP inflightPh

/-- Is the ref cell a live timer? -/
def refLive (r : RefCell) : Bool :=
  match r with
  | RefCell.live _ => true
  | _ => false

/-! ## Theorems -/

/-! ### C3 — duration formula -/

theorem durationScale (a : ℚ) : a / 1000 * 10 * 1000 = 10 * a := by ring

/-- C3: for every numeric amount, `calculateDisplayDuration` equals
`max(10000, (amount / 1000) * 10 * 1000)`; `1000 ↦ 10000` and
`2000 ↦ 20000` exactly; every positive amount yields at least 10000
with no upper ceiling; NaN and non-positive amounts yield exactly
10000. -/
theorem C3_duration_formula :
    (∀ a : ℚ, calculateDisplayDuration (JsNum.num a) = max 10000 (a / 1000 * 10 * 1000)) ∧
    calculateDisplayDuration (JsNum.num 1000) = 10000 ∧
    calculateDisplayDuration (JsNum.num 2000) = 20000 ∧
    (∀ a : ℚ, 0 < a → 10000 ≤ calculateDisplayDuration (JsNum.num a)) ∧
    (∀ M : ℚ, ∃ a : ℚ, 0 < a ∧ M < calculateDisplayDuration (JsNum.num a)) ∧
    calculateDisplayDuration JsNum.nan = 10000 ∧
    (∀ a : ℚ, a ≤ 0 → calculateDisplayDuration (JsNum.num a) = 10000) := by
  have hform : ∀ a : ℚ,
      calculateDisplayDuration (JsNum.num a) = max 10000 (a / 1000 * 10 * 1000) := by
    intro a
    show (if a ≤ 0 then (10000:ℚ) else maxQ 10000 (a / 1000 * 10 * 1000)) = _
    rw [maxQ_eq_max]
    by_cases h : a ≤ 0
    · rw [if_pos h, durationScale, max_eq_left (by nlinarith)]
    · rw [if_neg h]
  refine ⟨hform, ?_, ?_, ?_, ?_, rfl, ?_⟩
  · rw [hform]; norm_num
  · rw [hform]; norm_num
  · intro a _; rw [hform]; exact le_max_left _ _
  · intro M
    refine ⟨|M| + 1, by positivity, ?_⟩
    rw [hform, durationScale]
    calc M ≤ |M| := le_abs_self M
      _ < 10 * (|M| + 1) := by nlinarith [abs_nonneg M]
      _ ≤ max 10000 (10 * (|M| + 1)) := le_max_right _ _
  · intro a h
    show (if a ≤ 0 then (10000:ℚ) else maxQ 10000 (a / 1000 * 10 * 1000)) = 10000
    rw [if_pos h]

/-- Witness for C3 at concrete inputs. -/
theorem C3_duration_formula_witness :
    10000 ≤ calculateDisplayDuration (JsNum.num 3) ∧
    calculateDisplayDuration (JsNum.num (-5)) = 10000 :=
  ⟨C3_duration_formula.2.2.2.1 3 (by norm_num),
   C3_duration_formula.2.2.2.2.2.2 (-5) (by norm_num)⟩

/-! ### C5 — clear_queue reset and idempotence -/

/-- C5: a `clear_queue` message unconditionally resets the overlay to
the initial (hidden, timer-free, player-free) state; on the initial
state it is a no-op, and it is idempotent. -/
theorem C5_clear_queue_reset :
    ∀ (now : ℚ) (s : GiftState) (m : Msg), m.type = "clear_queue" →
      processMsg now s m = (initialGiftState, false) ∧
      hiddenRender initialGiftState = true ∧
      initialGiftState.donationTimer = false ∧
      initialGiftState.progressInterval = false ∧
      initialGiftState.youtubePlayer = false ∧
      (processMsg now initialGiftState m).1 = initialGiftState ∧
      (∀ now2 : ℚ, (processMsg now2 (processMsg now s m).1 m).1 = (processMsg now s m).1) := by
  intro now s m h
  have hclear : ∀ (n : ℚ) (st : GiftState), processMsg n st m = (initialGiftState, false) := by
    intro n st
    simp only [processMsg, h]
    rw [if_neg (show ¬ ("clear_queue" = "donation") by decide),
        if_neg (show ¬ ("clear_queue" = "media") by decide),
        if_pos trivial]
    rfl
  refine ⟨hclear now s, rfl, rfl, rfl, rfl, ?_, ?_⟩
  · rw [hclear now initialGiftState]
  · intro now2
    rw [hclear now s, hclear now2 initialGiftState]

/-- Witness for C5 at a concrete message and state. -/
theorem C5_clear_queue_reset_witness :
    processMsg 0 initialGiftState { type := "clear_queue" } = (initialGiftState, false) :=
  (C5_clear_queue_reset 0 initialGiftState { type := "clear_queue" } rfl).1

/-! ### C10 — text overlay fixed 10-second duration -/

/-- C10: in both text-overlay variants, every admitted `text` event sets
`totalDuration` and `remainingTime` to exactly 10000 ms, regardless of
the amount and of any backend `duration` field. -/
theorem C10_text_fixed_duration :
    ∀ (now : ℚ) (s s2 : TextState) (m : Msg),
      m.type = "text" →
      truthyStr m.donorName = true → jsGtZero m.amount = true → truthyStr m.id = true →
      (¬ (s.textMessage.isSome = true ∧ 0 < s.remainingTime) →
        (processTextMsg now s m).1.totalDuration = 10000 ∧
        (processTextMsg now s m).1.remainingTime = 10000 ∧
        (processTextMsg now s m).1.textMessage.isSome = true) ∧
      ((processTextMsgTTS now s2 m).totalDuration = 10000 ∧
       (processTextMsgTTS now s2 m).remainingTime = 10000 ∧
       (processTextMsgTTS now s2 m).textMessage.isSome = true) := by
  intro now s s2 m ht hdn ha hid
  constructor
  · intro hflight
    have hcond : (s.textMessage.isSome && decide (0 < s.remainingTime)) = false := by
      cases hb : (s.textMessage.isSome && decide (0 < s.remainingTime)) with
      | false => rfl
      | true =>
        rw [Bool.and_eq_true] at hb
        exact absurd ⟨hb.1, of_decide_eq_true hb.2⟩ hflight
    simp [processTextMsg, ht, hdn, ha, hid, hcond]
  · simp [processTextMsgTTS, ht, hdn, ha, hid]

/-- Witness for C10 at a concrete message and the initial states. -/
theorem C10_text_fixed_duration_witness :
    (processTextMsg 0 initialTextState
        { type := "text", id := some "t1", donorName := some "Tia",
          amount := some (JsNum.num 250000), duration := some (JsNum.num 99999) }).1.totalDuration
      = 10000 ∧
    (processTextMsgTTS 0 initialTextState
        { type := "text", id := some "t1", donorName := some "Tia",
          amount := some (JsNum.num 250000), duration := some (JsNum.num 99999) }).totalDuration
      = 10000 := by
  have h := C10_text_fixed_duration 0 initialTextState initialTextState
    { type := "text", id := some "t1", donorName := some "Tia",
      amount := some (JsNum.num 250000), duration := some (JsNum.num 99999) }
    rfl (by decide) (by decide) (by decide)
  exact ⟨(h.1 (by decide)).1, h.2.1⟩

/-! ### C8 — malformed amounts are dropped, not admitted (corrected) -/

/-- A donation event with amount 0 arriving on the idle overlay. -/
def zeroAmountDonation : Msg :=
  { type := "donation", id := some "a1", donorName := some "Tia",
    amount := some (JsNum.num 0) }

/-- A donation event with NaN amount arriving on the idle overlay. -/
def nanAmountDonation : Msg :=
  { type := "donation", id := some "a1", donorName := some "Tia",
    amount := some JsNum.nan }

/-- A text event with negative amount arriving on the idle overlay. -/
def negAmountText : Msg :=
  { type := "text", id := some "a1", donorName := some "Tia",
    amount := some (JsNum.num (-500)) }

/-- C8 counterexample: a donation with amount 0 (and one with NaN)
arriving while no alert is in flight leaves the state unchanged — no
alert is created, contradicting the claim that the event is admitted
with the 10-second minimum duration.  The text overlay drops a negative
amount the same way. -/
theorem C8_counterexample :
    processMsg 0 initialGiftState zeroAmountDonation = (initialGiftState, false) ∧
    (processMsg 0 initialGiftState zeroAmountDonation).1.donationMessage = none ∧
    processMsg 0 initialGiftState nanAmountDonation = (initialGiftState, false) ∧
    processTextMsg 0 initialTextState negAmountText = (initialTextState, false) ∧
    (processTextMsg 0 initialTextState negAmountText).1.textMessage = none := by
  decide

/-- C8 amended: a donation (or text) event whose amount is NaN, zero,
negative — or absent — fails the `amount > 0` admission guard and is
silently dropped with no state change; the 10-second fallback of
`calculateDisplayDuration` is never reached by such events. -/
theorem C8_amended_malformed_amount_dropped :
    ∀ (now : ℚ) (s : GiftState) (st : TextState) (m : Msg),
      (m.amount = some JsNum.nan ∨ m.amount = none ∨
        ∃ a : ℚ, m.amount = some (JsNum.num a) ∧ a ≤ 0) →
      (m.type = "donation" → processMsg now s m = (s, false)) ∧
      (m.type = "text" →
        processTextMsg now st m = (st, false) ∧ processTextMsgTTS now st m = st) := by
  intro now s st m hbad
  have hamt : jsGtZero m.amount = false := by
    rcases hbad with h | h | ⟨a, h, ha⟩
    · rw [h]; rfl
    · rw [h]; rfl
    · rw [h]
      simp [jsGtZero, JsNum.gtZero, not_lt.2 ha]
  constructor
  · intro ht
    simp [processMsg, ht, hamt]
  · intro ht
    constructor
    · simp [processTextMsg, ht, hamt]
    · simp [processTextMsgTTS, ht, hamt]

/-- Witness for the amended C8 on a concrete negative-amount event. -/
theorem C8_amended_malformed_amount_dropped_witness :
    processMsg 7 initialGiftState
      { type := "donation", id := some "z", donorName := some "D",
        amount := some (JsNum.num (-1)) } = (initialGiftState, false) :=
  ((C8_amended_malformed_amount_dropped 7 initialGiftState initialTextState
      { type := "donation", id := some "z", donorName := some "D",
        amount := some (JsNum.num (-1)) }
      (Or.inr (Or.inr ⟨-1, rfl, by norm_num⟩))).1) rfl

/-! ### C9 — duration override precedence (corrected) -/

/-- A donation carrying a negative backend duration. -/
def negDurationDonation : Msg :=
  { type := "donation", id := some "a1", donorName := some "Tia",
    amount := some (JsNum.num 1000), duration := some (JsNum.num (-5000)) }

/-- C9 counterexample: a negative backend `duration` is truthy in
JavaScript, so `data.duration || calculateDisplayDuration(...)` keeps
the negative value instead of falling back: the admitted alert gets
`totalDuration = -5000`, not `calculateDisplayDuration(1000) = 10000`
as the claim requires for a non-positive duration field. -/
theorem C9_counterexample :
    (processMsg 0 initialGiftState negDurationDonation).1.totalDuration = -5000 ∧
    (processMsg 0 initialGiftState negDurationDonation).1.donationMessage.isSome = true ∧
    calculateDisplayDuration (JsNum.num 1000) = 10000 ∧
    (-5000 : ℚ) ≠ 10000 := by
  refine ⟨by decide, by decide, ?_, by norm_num⟩
  show (if (1000 : ℚ) ≤ 0 then (10000 : ℚ)
        else maxQ 10000 (1000 / 1000 * 10 * 1000)) = 10000
  rw [maxQ_eq_max]
  norm_num

/-- C9 amended: for an admitted donation, `totalDurationMs` (and the
initial `remainingMs`) equal the backend `duration` whenever that field
is a non-zero number — including negative values — and equal
`calculateDisplayDuration(amount)` exactly when the field is absent,
zero, or NaN. -/
theorem C9_amended_duration_precedence :
    ∀ (now : ℚ) (s : GiftState) (m : Msg),
      m.type = "donation" →
      truthyStr m.donorName = true → jsGtZero m.amount = true → truthyStr m.id = true →
      ¬ (s.donationMessage.isSome = true ∧ 0 < s.remainingTime) →
      (∀ d : ℚ, m.duration = some (JsNum.num d) → d ≠ 0 →
        (processMsg now s m).1.totalDuration = d ∧
        (processMsg now s m).1.remainingTime = d) ∧
      ((m.duration = none ∨ m.duration = some JsNum.nan ∨ m.duration = some (JsNum.num 0)) →
        (processMsg now s m).1.totalDuration = calculateDisplayDuration (optJsNum m.amount) ∧
        (processMsg now s m).1.remainingTime = calculateDisplayDuration (optJsNum m.amount)) := by
  intro now s m ht hdn ha hid hflight
  have hcond : (s.donationMessage.isSome && decide (0 < s.remainingTime)) = false := by
    cases hb : (s.donationMessage.isSome && decide (0 < s.remainingTime)) with
    | false => rfl
    | true =>
      rw [Bool.and_eq_true] at hb
      exact absurd ⟨hb.1, of_decide_eq_true hb.2⟩ hflight
  constructor
  · intro d hdur hd0
    simp [processMsg, ht, hdn, ha, hid, hcond, chosenDuration, hdur, hd0]
  · intro hdur
    rcases hdur with h | h | h <;>
      simp [processMsg, ht, hdn, ha, hid, hcond, chosenDuration, h]

/-- Witness for the amended C9: a positive backend duration wins, an
absent one falls back to the amount formula. -/
theorem C9_amended_duration_precedence_witness :
    (processMsg 0 initialGiftState
      { type := "donation", id := some "a1", donorName := some "Tia",
        amount := some (JsNum.num 1000),
        duration := some (JsNum.num 25000) }).1.totalDuration = 25000 ∧
    (processMsg 0 initialGiftState
      { type := "donation", id := some "a1", donorName := some "Tia",
        amount := some (JsNum.num 2000) }).1.totalDuration
      = calculateDisplayDuration (optJsNum (some (JsNum.num 2000))) := by
  refine ⟨?_, ?_⟩
  · exact ((C9_amended_duration_precedence 0 initialGiftState
      { type := "donation", id := some "a1", donorName := some "Tia",
        amount := some (JsNum.num 1000), duration := some (JsNum.num 25000) }
      rfl (by decide) (by decide) (by decide) (by decide)).1 25000 rfl (by norm_num)).1
  · exact ((C9_amended_duration_precedence 0 initialGiftState
      { type := "donation", id := some "a1", donorName := some "Tia",
        amount := some (JsNum.num 2000) }
      rfl (by decide) (by decide) (by decide) (by decide)).2 (Or.inl rfl)).1

/-! ### C1 — admission exclusivity -/

/-- C1: while an alert is in flight (`donationMessage` set and
`remainingTime > 0`), every `donation` or `media` event — and hence any
sequence of such events — is discarded without modifying any state, so
the active alert (and its id) persists until it expires or a
`clear_queue` arrives. -/
theorem C1_admission_exclusivity :
    ∀ (s : GiftState),
      s.donationMessage.isSome = true → 0 < s.remainingTime →
      (∀ (now : ℚ) (m : Msg), m.type = "donation" ∨ m.type = "media" →
        (processMsg now s m).1 = s) ∧
      (∀ evs : List (ℚ × Msg),
        (∀ e ∈ evs, e.2.type = "donation" ∨ e.2.type = "media") →
        processMsgs s evs = s ∧
        (processMsgs s evs).currentDonationId = s.currentDonationId) := by
  intro s hsome hrem
  have hflight : (s.donationMessage.isSome && decide (0 < s.remainingTime)) = true := by
    rw [Bool.and_eq_true]
    exact ⟨hsome, decide_eq_true hrem⟩
  have hone : ∀ (now : ℚ) (m : Msg), m.type = "donation" ∨ m.type = "media" →
      (processMsg now s m).1 = s := by
    intro now m hty
    rcases hty with h | h
    · simp only [processMsg, h]
      rw [if_pos trivial]
      by_cases hg : (truthyStr m.donorName && jsGtZero m.amount && truthyStr m.id) = true
      · rw [if_pos hg, if_pos hflight]
      · rw [if_neg hg]
    · simp only [processMsg, h]
      rw [if_neg (show ¬ ("media" = "donation") by decide), if_pos trivial]
      by_cases hg : (truthyStr m.mediaUrl && truthyStr m.id) = true
      · rw [if_pos hg, if_pos hflight]
      · rw [if_neg hg]
  refine ⟨hone, ?_⟩
  intro evs hall
  have hfold : processMsgs s evs = s := by
    induction evs with
    | nil => rfl
    | cons e t ih =>
      have h1 : (processMsg e.1 s e.2).1 = s :=
        hone e.1 e.2 (hall e (List.mem_cons_self e t))
      calc processMsgs s (e :: t)
          = processMsgs (processMsg e.1 s e.2).1 t := rfl
        _ = processMsgs s t := by rw [h1]
        _ = s := ih fun x hx => hall x (List.mem_cons_of_mem e hx)
  exact ⟨hfold, by rw [hfold]⟩

/-- Witness for C1: a concrete donation is admitted, then a competing
donation and a media event arrive during its 20 seconds and leave the
state (and the active id) untouched. -/
theorem C1_admission_exclusivity_witness :
    (processMsgs (processMsg 0 initialGiftState
        { type := "donation", id := some "a1", donorName := some "Tia",
          amount := some (JsNum.num 2000), duration := some (JsNum.num 20000) }).1
      [(3, { type := "donation", id := some "b2", donorName := some "Bo",
             amount := some (JsNum.num 9000) }),
       (4, { type := "media", id := some "b2",
             mediaUrl := some "https://youtu.be/xyz" })])
      = (processMsg 0 initialGiftState
        { type := "donation", id := some "a1", donorName := some "Tia",
          amount := some (JsNum.num 2000), duration := some (JsNum.num 20000) }).1 :=
  ((C1_admission_exclusivity _ (by decide) (by decide)).2
    [(3, { type := "donation", id := some "b2", donorName := some "Bo",
           amount := some (JsNum.num 9000) }),
     (4, { type := "media", id := some "b2",
           mediaUrl := some "https://youtu.be/xyz" })]
    (by decide)).1

/-! ### C2 — pause conservation (code bug: the visibility channel is dead) -/

/-- A `visibility` message toggling the alert with the given id. -/
def visibilityMsg (i : String) (v : Bool) : Msg :=
  { type := "visibility", id := some i, visible := some v }

/-- The alert used to evaluate the failing input of C2: id "a1",
10-second backend duration (so `remainingMs = R = 10000`). -/
def c2alert : GiftState :=
  (processMsg 0 initialGiftState
    { type := "donation", id := some "a1", donorName := some "Tia",
      amount := some (JsNum.num 1000),
      duration := some (JsNum.num 10000) }).1

/-- C2: the claimed pause/resume contract is the evident intent of the
code (the handler body, `pauseStartTimeRef` and the tick's
dont-count-down-when-paused check all exist), but the guard
`data.id && data.id === currentDonationId` reads `currentDonationId`
from the mount-render closure, which is permanently null, so every
visibility event of every overlay is discarded with no state change
(first two conjuncts).  Evaluated at the failing input — an active
alert with `remainingMs = 10000`, visible=false at t = 0, five interval
ticks, visible=true at t = 5000 — the pause is ignored
(`pauseStartedAt` never recorded, tick not suspended), the countdown
keeps running and the alert resumes with `remainingMs = 5000`, not the
claimed `R = 10000`; expiry is not delayed at all. -/
theorem C2_visibility_channel_dead :
    (∀ (now : ℚ) (s : GiftState) (m : Msg), m.type = "visibility" →
      processMsg now s m = (s, false)) ∧
    (∀ (now : ℚ) (st : TextState) (m : Msg), m.type = "visibility" →
      processTextMsg now st m = (st, false) ∧ processTextMsgTTS now st m = st) ∧
    c2alert.remainingTime = 10000 ∧
    (processMsg 0 c2alert (visibilityMsg "a1" false)).1 = c2alert ∧
    (processMsg 5000 (tick (tick (tick (tick (tick
        (processMsg 0 c2alert (visibilityMsg "a1" false)).1)))))
      (visibilityMsg "a1" true)).1.remainingTime = 5000 ∧
    (processMsg 5000 (tick (tick (tick (tick (tick
        (processMsg 0 c2alert (visibilityMsg "a1" false)).1)))))
      (visibilityMsg "a1" true)).1.pauseStartTime = none ∧
    (processMsg 5000 (tick (tick (tick (tick (tick
        (processMsg 0 c2alert (visibilityMsg "a1" false)).1)))))
      (visibilityMsg "a1" true)).1.isVisible = true := by
  have hvisG : ∀ (now : ℚ) (s : GiftState) (m : Msg), m.type = "visibility" →
      processMsg now s m = (s, false) := by
    intro now s m ht
    cases hid : m.id with
    | none => simp [processMsg, ht, truthyStr, hid]
    | some i => simp [processMsg, ht, hid, closureCurrentDonationId]
  have hvisT : ∀ (now : ℚ) (st : TextState) (m : Msg), m.type = "visibility" →
      processTextMsg now st m = (st, false) ∧ processTextMsgTTS now st m = st := by
    intro now st m ht
    cases hid : m.id with
    | none =>
      constructor
      · simp [processTextMsg, textVisibility, ht, truthyStr, hid]
      · simp [processTextMsgTTS, textVisibility, ht, truthyStr, hid]
    | some i =>
      constructor
      · simp [processTextMsg, textVisibility, ht, hid, closureCurrentDonationId]
      · simp [processTextMsgTTS, textVisibility, ht, hid, closureCurrentDonationId]
  have hR : c2alert.remainingTime = 10000 := by
    norm_num +decide [c2alert, processMsg, chosenDuration, truthyStr, jsGtZero,
      JsNum.gtZero, initialGiftState]
  have hpause : (processMsg 0 c2alert (visibilityMsg "a1" false)).1 = c2alert := by
    rw [hvisG 0 c2alert (visibilityMsg "a1" false) rfl]
  have hticks :
      tick (tick (tick (tick (tick c2alert)))) =
        { c2alert with remainingTime := 5000 } := by
    norm_num +decide [c2alert, processMsg, chosenDuration, truthyStr, jsGtZero,
      JsNum.gtZero, initialGiftState, truncMsg, tick]
  have hresume :
      (processMsg 5000 (tick (tick (tick (tick (tick
          (processMsg 0 c2alert (visibilityMsg "a1" false)).1)))))
        (visibilityMsg "a1" true)).1 = { c2alert with remainingTime := 5000 } := by
    rw [hpause, hticks, hvisG 5000 _ (visibilityMsg "a1" true) rfl]
  refine ⟨hvisG, hvisT, hR, hpause, ?_, ?_, ?_⟩
  · rw [hresume]
  · rw [hresume]
    norm_num +decide [c2alert, processMsg, chosenDuration, truthyStr, jsGtZero,
      JsNum.gtZero, initialGiftState]
  · rw [hresume]
    norm_num +decide [c2alert, processMsg, chosenDuration, truthyStr, jsGtZero,
      JsNum.gtZero, initialGiftState]

/-- Witness for C2 applying the no-op lemma at a concrete visibility
event. -/
theorem C2_visibility_channel_dead_witness :
    processMsg 3 c2alert (visibilityMsg "a1" false) = (c2alert, false) :=
  C2_visibility_channel_dead.1 3 c2alert (visibilityMsg "a1" false) rfl

/-! ### C4 — media-end loop policy -/

/-- Every state the GiftPage overlay can actually be in: the mount
state, closed under message handling (at any instant) and interval
ticks. -/
inductive GiftReach : GiftState → Prop where
  | init : GiftReach initialGiftState
  | msg : ∀ (now : ℚ) (m : Msg) (s : GiftState), GiftReach s →
      GiftReach (processMsg now s m).1
  | tic : ∀ s : GiftState, GiftReach s → GiftReach (tick s)

theorem bool_not_true {b : Bool} (h : ¬ b = true) : b = false := by
  cases b
  · rfl
  · exact absurd rfl h

/-- On every reachable overlay state a positive countdown implies a
positive total duration: the countdown starts equal to the total at
admission and never increases afterwards (the resume path that could
raise it is dead code, see `C2_visibility_channel_dead`). -/
theorem giftReach_total_pos (s : GiftState) (h : GiftReach s) :
    0 < s.remainingTime → 0 < s.totalDuration := by
  induction h with
  | init =>
    intro h0
    norm_num [initialGiftState] at h0
  | msg now m s hs ih =>
    by_cases hd : m.type = "donation"
    · by_cases hg : (truthyStr m.donorName && jsGtZero m.amount && truthyStr m.id) = true
      · by_cases hf : (s.donationMessage.isSome && decide (0 < s.remainingTime)) = true
        · have hstep : processMsg now s m = (s, true) := by
            simp [processMsg, hd, hg, hf]
          rw [hstep]
          exact ih
        · have hf2 := bool_not_true hf
          have hstep : (processMsg now s m).1.remainingTime = chosenDuration m ∧
              (processMsg now s m).1.totalDuration = chosenDuration m := by
            constructor <;> simp [processMsg, hd, hg, hf2]
          intro h0
          rw [hstep.2]
          rw [hstep.1] at h0
          exact h0
      · have hg2 := bool_not_true hg
        have hstep : processMsg now s m = (s, false) := by
          simp [processMsg, hd, hg2]
        rw [hstep]
        exact ih
    · by_cases hm : m.type = "media"
      · by_cases hg : (truthyStr m.mediaUrl && truthyStr m.id) = true
        · by_cases hf : (s.donationMessage.isSome && decide (0 < s.remainingTime)) = true
          · have hstep : processMsg now s m = (s, true) := by
              simp [processMsg, hd, hm, hg, hf]
            rw [hstep]
            exact ih
          · have hf2 := bool_not_true hf
            have hstep : (processMsg now s m).1.remainingTime = s.remainingTime ∧
                (processMsg now s m).1.totalDuration = s.totalDuration := by
              constructor <;>
                simp [processMsg, hd, hm, hg, hf2, resetGuard, closureCurrentDonationId]
            intro h0
            rw [hstep.2]
            rw [hstep.1] at h0
            exact ih h0
        · have hg2 := bool_not_true hg
          have hstep : processMsg now s m = (s, false) := by
            simp [processMsg, hd, hm, hg2]
          rw [hstep]
          exact ih
      · by_cases hc : m.type = "clear_queue"
        · have hstep : (processMsg now s m).1.remainingTime = 0 := by
            simp [processMsg, hd, hm, hc]
          intro h0
          rw [hstep] at h0
          norm_num at h0
        · by_cases hv : m.type = "visibility"
          · cases hid : m.id with
            | none =>
              have hstep : processMsg now s m = (s, false) := by
                simp [processMsg, hd, hm, hc, hv, truthyStr, hid]
              rw [hstep]
              exact ih
            | some i =>
              have hstep : processMsg now s m = (s, false) := by
                simp [processMsg, hd, hm, hc, hv, hid, closureCurrentDonationId]
              rw [hstep]
              exact ih
          · have hstep : processMsg now s m = (s, false) := by
              simp [processMsg, hd, hm, hc, hv]
            rw [hstep]
            exact ih
  | tic s hs ih =>
    by_cases hv : s.isVisible = true
    · by_cases he : max 0 (s.remainingTime - 1000) ≤ 0
      · have hstep : (tick s).remainingTime = 0 := by
          simp [tick, hv, he]
        intro h0
        rw [hstep] at h0
        norm_num at h0
      · have hstep : (tick s).remainingTime = max 0 (s.remainingTime - 1000) ∧
            (tick s).totalDuration = s.totalDuration := by
          constructor <;> simp [tick, hv, he]
        intro h0
        rw [hstep.2]
        rw [hstep.1] at h0
        refine ih ?_
        rcases lt_max_iff.1 h0 with h | h
        · exact absurd h (by norm_num)
        · linarith
    · have hv2 := bool_not_true hv
      have hstep : tick s = s := by
        simp [tick, hv2]
      rw [hstep]
      exact ih

/-- C4: on every reachable overlay state, a media "ended" signal makes
the player seek back to the start offset (native video to 0, YouTube to
the configured offset or 0) and replay whenever the owning alert exists
with `remainingMs > 0` — reachability supplies `totalDuration > 0`, so
the handler's extra `totalDuration <= 0` teardown disjunct never fires
there — and makes it tear the player down when there is no active alert
or `remainingMs <= 0`. -/
theorem C4_media_end_loop :
    ∀ s : GiftState, GiftReach s →
      ((s.donationMessage.isSome = true ∧ 0 < s.remainingTime) →
        handleVideoEnded s = EndAction.replay 0 ∧
        youtubeEnded s = EndAction.replay (if 0 < s.startTime then s.startTime else 0)) ∧
      ((s.donationMessage.isSome = false ∨ s.remainingTime ≤ 0) →
        handleVideoEnded s = EndAction.teardown ∧
        youtubeEnded s = EndAction.teardown) := by
  intro s hreach
  constructor
  · rintro ⟨h1, h3⟩
    have h2 : 0 < s.totalDuration := giftReach_total_pos s hreach h3
    have hnone : s.donationMessage.isNone = false := by
      cases hd : s.donationMessage with
      | none => rw [hd] at h1; exact absurd h1 (by decide)
      | some d => rfl
    have hC : (s.donationMessage.isNone || decide (s.totalDuration ≤ 0)
        || decide (s.remainingTime ≤ 0)) = false := by
      rw [hnone, decide_eq_false (not_le.2 h2), decide_eq_false (not_le.2 h3)]
      rfl
    constructor
    · simp [handleVideoEnded, hC]
    · simp [youtubeEnded, hC]
  · intro hcase
    have hC : (s.donationMessage.isNone || decide (s.totalDuration ≤ 0)
        || decide (s.remainingTime ≤ 0)) = true := by
      rcases hcase with h | h
      · have hnone : s.donationMessage.isNone = true := by
          cases hd : s.donationMessage with
          | none => rfl
          | some d => rw [hd] at h; simp at h
        simp [hnone]
      · simp [decide_eq_true h]
    constructor
    · simp [handleVideoEnded, hC]
    · simp [youtubeEnded, hC]

/-- The admitted alert used by the C4 witness. -/
def c4don : Msg :=
  { type := "donation", id := some "a1", donorName := some "Tia",
    amount := some (JsNum.num 2000), duration := some (JsNum.num 20000) }

/-- Witness for C4 at a reachable live alert (replay) and at the idle
mount state (teardown). -/
theorem C4_media_end_loop_witness :
    handleVideoEnded (processMsg 0 initialGiftState c4don).1 = EndAction.replay 0 ∧
    youtubeEnded initialGiftState = EndAction.teardown := by
  constructor
  · exact ((C4_media_end_loop (processMsg 0 initialGiftState c4don).1
      (GiftReach.msg 0 c4don initialGiftState GiftReach.init)).1
      ⟨by decide, by decide⟩).1
  · exact ((C4_media_end_loop initialGiftState GiftReach.init).2
      (Or.inl (by decide))).2

/-! ### C6 — frame splitting with parse-failure isolation -/

theorem dropWhile_self {α : Type} (p : α → Bool) (l : List α) :
    (l.dropWhile p).dropWhile p = l.dropWhile p := by
  induction l with
  | nil => rfl
  | cons c t ih =>
    by_cases h : p c = true
    · simp [List.dropWhile_cons, h, ih]
    · simp [List.dropWhile_cons, h]

theorem dropWhile_head_false {α : Type} (p : α → Bool) (l : List α)
    (c : α) (t : List α) (h : l.dropWhile p = c :: t) : p c = false := by
  induction l with
  | nil => simp at h
  | cons a l2 ih =>
    rw [List.dropWhile_cons] at h
    by_cases ha : p a = true
    · rw [if_pos ha] at h
      exact ih h
    · rw [if_neg ha] at h
      obtain ⟨rfl, -⟩ := List.cons.inj h
      exact Bool.eq_false_iff.2 ha

theorem trimCharList_idem (l : List Char) :
    trimCharList (trimCharList l) = trimCharList l := by
  have step1 : (rdropWs (l.dropWhile isWsChar)).dropWhile isWsChar
      = rdropWs (l.dropWhile isWsChar) := by
    have haa : (l.dropWhile isWsChar).dropWhile isWsChar = l.dropWhile isWsChar :=
      dropWhile_self isWsChar l
    have hpre : rdropWs (l.dropWhile isWsChar) <+: l.dropWhile isWsChar := by
      have hsuf := List.dropWhile_suffix (l := (l.dropWhile isWsChar).reverse) isWsChar
      have := hsuf.reverse
      rwa [List.reverse_reverse] at this
    obtain ⟨u, hu⟩ := hpre
    cases hrd : rdropWs (l.dropWhile isWsChar) with
    | nil => simp
    | cons c t =>
      rw [hrd] at hu
      have hc : isWsChar c = false := by
        refine dropWhile_head_false isWsChar (l.dropWhile isWsChar) c (t ++ u) ?_
        rw [haa, ← hu]
        simp
      rw [List.dropWhile_cons, if_neg (by simp [hc])]
  have step2 : rdropWs (rdropWs (l.dropWhile isWsChar))
      = rdropWs (l.dropWhile isWsChar) := by
    unfold rdropWs
    rw [List.reverse_reverse, dropWhile_self]
  unfold trimCharList
  rw [step1, step2]

theorem jsTrim_idem (s : String) : jsTrim (jsTrim s) = jsTrim s := by
  show (⟨trimCharList (trimCharList s.data)⟩ : String) = ⟨trimCharList s.data⟩
  rw [trimCharList_idem]

theorem splitNlChars_no_nl (l : List Char) (h : '\n' ∉ l) :
    splitNlChars l = [l] := by
  induction l with
  | nil => rfl
  | cons c t ih =>
    rw [List.mem_cons, not_or] at h
    obtain ⟨hc, ht⟩ := h
    have hc2 : ¬ (c = '\n') := fun hh => hc hh.symm
    simp only [splitNlChars, ih ht]
    rw [if_neg hc2]

/-- C6: the handler splits each raw frame on newline, trims every
segment, discards segments that are empty after trimming (first
conjunct: `frameSegments` agrees with that canonical
split-trim-filter); a segment whose `JSON.parse` fails is skipped
without affecting the processing of its sibling segments (second
conjunct); and the segments that do parse are dispatched to the message
switch in frame order, each from the state left by its predecessor
(third conjunct, including the early-`return` case). -/
theorem C6_frame_splitting :
    (∀ raw : String,
      frameSegments raw = (jsSplitNl (jsTrim raw)).filter fun msg => jsTrim msg ≠ "") ∧
    (∀ (parse : String → Option Msg) (now : ℚ) (s : GiftState)
        (pre : List String) (seg : String) (post : List String),
      jsTrim seg = "" ∨ parse (jsTrim seg) = none →
      processSegs parse now s (pre ++ seg :: post)
        = processSegs parse now s (pre ++ post)) ∧
    (∀ (parse : String → Option Msg) (now : ℚ) (s : GiftState)
        (g : String) (rest : List String) (m : Msg),
      jsTrim g ≠ "" → parse (jsTrim g) = some m →
      ((processMsg now s m).2 = false →
        processSegs parse now s (g :: rest)
          = processSegs parse now (processMsg now s m).1 rest) ∧
      ((processMsg now s m).2 = true →
        processSegs parse now s (g :: rest) = (processMsg now s m).1)) := by
  refine ⟨?_, ?_, ?_⟩
  · intro raw
    unfold frameSegments
    by_cases h0 : jsTrim raw = ""
    · rw [if_pos h0, h0]
      rfl
    · rw [if_neg h0]
      by_cases h1 : jsIncludesNl (jsTrim raw) = true
      · rw [if_pos h1]
      · rw [if_neg h1]
        have hnl : '\n' ∉ (jsTrim raw).data := by
          intro hm
          exact h1 (List.elem_iff.2 hm)
        have hsplit : jsSplitNl (jsTrim raw) = [jsTrim raw] := by
          unfold jsSplitNl
          rw [splitNlChars_no_nl _ hnl]
          rfl
        rw [hsplit, List.filter_cons]
        rw [if_pos (by rw [jsTrim_idem]; exact decide_eq_true h0)]
        rfl
  · intro parse now s pre seg post hskip
    induction pre generalizing s with
    | nil =>
      rcases hskip with h | h
      · simp [processSegs, h]
      · by_cases h2 : jsTrim seg = ""
        · simp [processSegs, h2]
        · simp [processSegs, h2, h]
    | cons g pre ih =>
      by_cases hg : jsTrim g = ""
      · simpa [processSegs, hg] using ih s
      · cases hp : parse (jsTrim g) with
        | none => simpa [processSegs, hg, hp] using ih s
        | some m =>
          cases hpm : processMsg now s m with
          | mk s1 ab =>
            cases ab
            · simpa [processSegs, hg, hp, hpm] using ih s1
            · simp [processSegs, hg, hp, hpm]
  · intro parse now s g rest m hg hp
    cases hpm : processMsg now s m with
    | mk s1 ab =>
      constructor
      · intro hab
        simp only [] at hab
        have hab2 : ab = false := hab
        subst hab2
        simp [processSegs, hg, hp, hpm]
      · intro hab
        have hab2 : ab = true := hab
        subst hab2
        simp [processSegs, hg, hp, hpm]

/-- Lookup table standing in for `JSON.parse` in the C6 witness. -/
def testParse : String → Option Msg := fun t =>
  if t = "d1" then
    some { type := "donation", id := some "a1", donorName := some "Tia",
           amount := some (JsNum.num 1000), duration := some (JsNum.num 10000) }
  else if t = "c1" then some { type := "clear_queue" }
  else none

/-- Witness for C6: an unparsable middle segment is dropped without
affecting its siblings. -/
theorem C6_frame_splitting_witness :
    processSegs testParse 0 initialGiftState ["d1", "junk", "c1"]
      = processSegs testParse 0 initialGiftState ["d1", "c1"] :=
  C6_frame_splitting.2.1 testParse 0 initialGiftState ["d1"] "junk" ["c1"]
    (Or.inr (by decide))

/-! ### C7 — reconnect discipline -/

theorem countP_set_balance {α : Type} (p : α → Bool) :
    ∀ (l : List α) (i : ℕ) (a v : α), l[i]? = some a →
      (l.set i v).countP p + (if p a then 1 else 0)
        = l.countP p + (if p v then 1 else 0) := by
  intro l
  induction l with
  | nil => intro i a v h; simp at h
  | cons x t ih =>
    intro i a v h
    cases i with
    | zero =>
      rw [List.getElem?_cons_zero] at h
      obtain rfl := Option.some.inj h
      simp [List.set_cons_zero, List.countP_cons]
      omega
    | succ j =>
      rw [List.getElem?_cons_succ] at h
      have hrec := ih j a v h
      simp [List.set_cons_succ, List.countP_cons]
      omega

/-- Invariant of the reconnecting transport: the pending-timer count
matches the ref cell, at most one socket is in flight, a live timer
implies no in-flight socket, and the CLOSING phase is never reached
(the `close()` call in `connectWebSocket` is dead from the initial
state). -/
def InvT (s : TransportState) : Prop :=
  s.pending = (if refLive s.ref = true then 1 else 0) ∧
  inflightCount s ≤ 1 ∧
  (refLive s.ref = true → inflightCount s = 0) ∧
  ∀ p ∈ s.socks, p ≠ SockPhase.closingPh

theorem invT_initT (b : Bool) : InvT (initT b) := by
  cases b <;> exact ⟨by decide, by decide, by decide, by decide⟩

theorem invT_stepT (s : TransportState) (e : TEvent) (hs : InvT s) :
    InvT (stepT s e) := by
  obtain ⟨hA, hB, hC, hD⟩ := hs
  have hifc : (if inflightPh SockPhase.connecting = true then 1 else 0) = 1 := rfl
  have hifo : (if inflightPh SockPhase.opened = true then 1 else 0) = 1 := rfl
  have hifd : (if inflightPh SockPhase.closed = true then 1 else 0) = 0 := rfl
  have hinfl : ∀ {i : ℕ} {ph : SockPhase}, s.socks[i]? = some ph →
      inflightPh ph = true → 1 ≤ inflightCount s := by
    intro i ph hget hph
    exact List.countP_pos_iff.2 ⟨ph, List.getElem?_mem hget, hph⟩
  have hmemset : ∀ (i : ℕ) (v : SockPhase), v ≠ SockPhase.closingPh →
      ∀ q ∈ s.socks.set i v, q ≠ SockPhase.closingPh := by
    intro i v hv q hq
    rcases List.mem_or_eq_of_mem_set hq with h | h
    · exact hD q h
    · rw [h]; exact hv
  have hBcnt : s.socks.countP inflightPh ≤ 1 := hB
  cases e with
  | openEvt i =>
    cases hget : s.socks[i]? with
    | none =>
      have hstep : stepT s (TEvent.openEvt i) = s := by simp [stepT, hget]
      rw [hstep]; exact ⟨hA, hB, hC, hD⟩
    | some ph =>
      cases ph with
      | opened =>
        have hstep : stepT s (TEvent.openEvt i) = s := by simp [stepT, hget]
        rw [hstep]; exact ⟨hA, hB, hC, hD⟩
      | closingPh =>
        have hstep : stepT s (TEvent.openEvt i) = s := by simp [stepT, hget]
        rw [hstep]; exact ⟨hA, hB, hC, hD⟩
      | closed =>
        have hstep : stepT s (TEvent.openEvt i) = s := by simp [stepT, hget]
        rw [hstep]; exact ⟨hA, hB, hC, hD⟩
      | connecting =>
        have hbal := countP_set_balance inflightPh
          s.socks i SockPhase.connecting SockPhase.opened hget
        rw [hifc, hifo] at hbal
        have hmem := hmemset i SockPhase.opened (by intro h; cases h)
        cases href : s.ref with
        | empty =>
          have hstep : stepT s (TEvent.openEvt i)
              = { s with socks := s.socks.set i SockPhase.opened } := by
            simp [stepT, hget, href]
          rw [hstep]
          refine ⟨hA, ?_, ?_, hmem⟩
          · show (s.socks.set i SockPhase.opened).countP inflightPh ≤ 1
            omega
          · intro hlv
            have hlv2 : refLive s.ref = true := hlv
            rw [href] at hlv2
            exact absurd hlv2 (by decide)
        | live d =>
          exfalso
          have h0 : inflightCount s = 0 := hC (by rw [href]; rfl)
          have h1 := hinfl hget rfl
          omega
        | stale =>
          have hpend : s.pending = 0 := by
            rw [href] at hA
            simpa [refLive] using hA
          have hstep : stepT s (TEvent.openEvt i)
              = { s with socks := s.socks.set i SockPhase.opened,
                         ref := RefCell.empty } := by
            simp [stepT, hget, href]
          rw [hstep]
          refine ⟨by simp [refLive, hpend], ?_, ?_, hmem⟩
          · show (s.socks.set i SockPhase.opened).countP inflightPh ≤ 1
            omega
          · intro hlv
            have hlv2 : refLive RefCell.empty = true := hlv
            exact absurd hlv2 (by decide)
  | closeEvt i code withErr =>
    cases hget : s.socks[i]? with
    | none =>
      have hstep : stepT s (TEvent.closeEvt i code withErr) = s := by
        simp [stepT, hget]
      rw [hstep]; exact ⟨hA, hB, hC, hD⟩
    | some ph =>
      by_cases hact : activePhase ph = true
      · have hphtrue : inflightPh ph = true := by
          have hnc : ph ≠ SockPhase.closingPh := hD ph (List.getElem?_mem hget)
          cases ph with
          | connecting => rfl
          | opened => rfl
          | closingPh => exact absurd rfl hnc
          | closed => simp [activePhase] at hact
        have hbal := countP_set_balance inflightPh
          s.socks i ph SockPhase.closed hget
        rw [hifd, if_pos hphtrue] at hbal
        have hmem := hmemset i SockPhase.closed (by intro h; cases h)
        cases href : s.ref with
        | live d =>
          exfalso
          have h0 : inflightCount s = 0 := hC (by rw [href]; rfl)
          have h1 := hinfl hget hphtrue
          omega
        | empty =>
          have hpend : s.pending = 0 := by
            rw [href] at hA
            simpa [refLive] using hA
          cases withErr with
          | true =>
            have hstep : stepT s (TEvent.closeEvt i code true)
                = { s with socks := s.socks.set i SockPhase.closed,
                           ref := RefCell.live 1000,
                           pending := s.pending + 1 } := by
              by_cases hcode : code = 1000 <;>
                simp [stepT, hget, hact, href, applySchedule, hcode]
            rw [hstep]
            refine ⟨by simp [refLive, hpend], ?_, ?_, hmem⟩
            · show (s.socks.set i SockPhase.closed).countP inflightPh ≤ 1
              omega
            · intro _
              show (s.socks.set i SockPhase.closed).countP inflightPh = 0
              omega
          | false =>
            by_cases hcode : code = 1000
            · have hstep : stepT s (TEvent.closeEvt i code false)
                  = { s with socks := s.socks.set i SockPhase.closed } := by
                simp [stepT, hget, hact, href, applySchedule, hcode]
              rw [hstep]
              refine ⟨hA, ?_, ?_, hmem⟩
              · show (s.socks.set i SockPhase.closed).countP inflightPh ≤ 1
                omega
              · intro hlv
                have hlv2 : refLive s.ref = true := hlv
                rw [href] at hlv2
                exact absurd hlv2 (by decide)
            · have hstep : stepT s (TEvent.closeEvt i code false)
                  = { s with socks := s.socks.set i SockPhase.closed,
                             ref := RefCell.live 3000,
                             pending := s.pending + 1 } := by
                simp [stepT, hget, hact, href, applySchedule, hcode]
              rw [hstep]
              refine ⟨by simp [refLive, hpend], ?_, ?_, hmem⟩
              · show (s.socks.set i SockPhase.closed).countP inflightPh ≤ 1
                omega
              · intro _
                show (s.socks.set i SockPhase.closed).countP inflightPh = 0
                omega
        | stale =>
          have hstep : stepT s (TEvent.closeEvt i code withErr)
              = { s with socks := s.socks.set i SockPhase.closed } := by
            cases withErr <;> by_cases hcode : code = 1000 <;>
              simp [stepT, hget, hact, href, applySchedule, hcode]
          rw [hstep]
          refine ⟨hA, ?_, ?_, hmem⟩
          · show (s.socks.set i SockPhase.closed).countP inflightPh ≤ 1
            omega
          · intro hlv
            have hlv2 : refLive s.ref = true := hlv
            rw [href] at hlv2
            exact absurd hlv2 (by decide)
      · have hstep : stepT s (TEvent.closeEvt i code withErr) = s := by
          simp [stepT, hget, hact]
        rw [hstep]; exact ⟨hA, hB, hC, hD⟩
  | timerFire =>
    cases href : s.ref with
    | empty =>
      have hstep : stepT s TEvent.timerFire = s := by simp [stepT, href]
      rw [hstep]; exact ⟨hA, hB, hC, hD⟩
    | stale =>
      have hstep : stepT s TEvent.timerFire = s := by simp [stepT, href]
      rw [hstep]; exact ⟨hA, hB, hC, hD⟩
    | live d =>
      have hpend : s.pending = 1 := by
        rw [href] at hA
        simpa [refLive] using hA
      have h0 : inflightCount s = 0 := hC (by rw [href]; rfl)
      have hone : List.countP inflightPh [SockPhase.connecting] = 1 := rfl
      have hlast : s.socks.getLast? ≠ some SockPhase.opened := by
        intro hh
        have hmem := List.mem_of_getLast?_eq_some hh
        have h1 : 1 ≤ inflightCount s :=
          List.countP_pos_iff.2 ⟨SockPhase.opened, hmem, rfl⟩
        omega
      have hstep : stepT s TEvent.timerFire
          = { s with socks := s.socks ++ [SockPhase.connecting],
                     ref := RefCell.stale, pending := s.pending - 1 } := by
        cases hgl : s.socks.getLast? with
        | none => simp [stepT, href, connectT, hgl]
        | some ph =>
          have hphno : ph ≠ SockPhase.opened := by
            intro hh; rw [hh] at hgl; exact hlast hgl
          cases ph with
          | opened => exact absurd rfl hphno
          | connecting => simp [stepT, href, connectT, hgl]
          | closingPh => simp [stepT, href, connectT, hgl]
          | closed => simp [stepT, href, connectT, hgl]
      rw [hstep]
      have h0c : s.socks.countP inflightPh = 0 := h0
      refine ⟨by simp [refLive, hpend], ?_, ?_, ?_⟩
      · show (s.socks ++ [SockPhase.connecting]).countP inflightPh ≤ 1
        rw [List.countP_append, hone, h0c]
      · intro hlv
        have hlv2 : refLive RefCell.stale = true := hlv
        exact absurd hlv2 (by decide)
      · intro q hq
        rcases List.mem_append.1 hq with h | h
        · exact hD q h
        · rw [List.mem_singleton.1 h]
          intro hcon; cases hcon

theorem invT_runT (b : Bool) (evs : List TEvent) : InvT (runT b evs) := by
  unfold runT
  have hgen : ∀ (l : List TEvent) (s : TransportState), InvT s → InvT (l.foldl stepT s) := by
    intro l
    induction l with
    | nil => intro s hs; exact hs
    | cons e t ih =>
      intro s hs
      exact ih (stepT s e) (invT_stepT s e hs)
  exact hgen evs (initT b) (invT_initT b)

/-- The trace mount → first socket dies abnormally (1006) → the
3-second reconnect timer fires.  Afterwards the replacement socket is
connecting, no timer is pending, but `reconnectTimeoutRef` still holds
the fired timer's id: the callback never clears it (only `onopen`
does). -/
def staleRefTrace : List TEvent :=
  [TEvent.closeEvt 0 1006 false, TEvent.timerFire]

/-- C7 counterexample: in the reachable post-`staleRefTrace` state no
reconnect timer is pending, yet when the replacement socket also closes
abnormally (code 1006) the guard `!reconnectTimeoutRef.current` sees
the stale-but-truthy id and schedules nothing — pending stays 0 and the
ref stays stale — refuting the claim that every non-1000 close
schedules exactly one reconnect attempt. -/
theorem C7_counterexample :
    (runT false staleRefTrace).pending = 0 ∧
    (runT false staleRefTrace).ref = RefCell.stale ∧
    (runT false staleRefTrace).socks[1]? = some SockPhase.connecting ∧
    (stepT (runT false staleRefTrace) (TEvent.closeEvt 1 1006 false)).pending = 0 ∧
    (stepT (runT false staleRefTrace) (TEvent.closeEvt 1 1006 false)).ref
      = RefCell.stale := by
  decide

/-- C7 amended: (1) an `onclose` with the intentional code 1000 (and no
error) never touches the reconnect timer; (2) any other close of a live
socket schedules exactly one reconnect with the fixed 3-second delay
when `reconnectTimeoutRef` is empty, and schedules nothing — leaving
the pending count unchanged — when the ref holds an id, including the
stale id of a timer that already fired (so after the single retry dies
the transport stops rescheduling until an open clears the ref, see
`C7_counterexample`); (3) a successful `onopen` clears the ref and
leaves zero pending timers; and (4) after any event trace from mount,
at most one reconnect timer is pending and at most one socket is
OPEN. -/
theorem C7_reconnect_discipline :
    (∀ (s : TransportState) (i : ℕ),
      (stepT s (TEvent.closeEvt i 1000 false)).ref = s.ref ∧
      (stepT s (TEvent.closeEvt i 1000 false)).pending = s.pending) ∧
    (∀ (s : TransportState) (i code : ℕ), code ≠ 1000 →
      (∃ ph, s.socks[i]? = some ph ∧ activePhase ph = true) →
      (s.ref = RefCell.empty →
        (stepT s (TEvent.closeEvt i code false)).ref = RefCell.live 3000 ∧
        (stepT s (TEvent.closeEvt i code false)).pending = s.pending + 1) ∧
      (s.ref ≠ RefCell.empty →
        (stepT s (TEvent.closeEvt i code false)).ref = s.ref ∧
        (stepT s (TEvent.closeEvt i code false)).pending = s.pending)) ∧
    (∀ (b : Bool) (evs : List TEvent) (i : ℕ),
      (runT b evs).socks[i]? = some SockPhase.connecting →
      (stepT (runT b evs) (TEvent.openEvt i)).ref = RefCell.empty ∧
      (stepT (runT b evs) (TEvent.openEvt i)).pending = 0) ∧
    (∀ (b : Bool) (evs : List TEvent),
      (runT b evs).pending ≤ 1 ∧ openedCount (runT b evs) ≤ 1) := by
  refine ⟨?_, ?_, ?_, ?_⟩
  · intro s i
    cases hget : s.socks[i]? with
    | none =>
      have hstep : stepT s (TEvent.closeEvt i 1000 false) = s := by
        simp [stepT, hget]
      rw [hstep]; exact ⟨rfl, rfl⟩
    | some ph =>
      by_cases hact : activePhase ph = true
      · have hstep : stepT s (TEvent.closeEvt i 1000 false)
            = { s with socks := s.socks.set i SockPhase.closed } := by
          simp [stepT, hget, hact]
        rw [hstep]; exact ⟨rfl, rfl⟩
      · have hstep : stepT s (TEvent.closeEvt i 1000 false) = s := by
          simp [stepT, hget, hact]
        rw [hstep]; exact ⟨rfl, rfl⟩
  · rintro s i code hcode ⟨ph, hget, hact⟩
    constructor
    · intro href
      have hstep : stepT s (TEvent.closeEvt i code false)
          = { s with socks := s.socks.set i SockPhase.closed,
                     ref := RefCell.live 3000, pending := s.pending + 1 } := by
        simp [stepT, hget, hact, href, applySchedule, hcode]
      rw [hstep]; exact ⟨rfl, rfl⟩
    · intro hne
      cases href : s.ref with
      | empty => exact absurd href hne
      | live d =>
        have hstep : stepT s (TEvent.closeEvt i code false)
            = { s with socks := s.socks.set i SockPhase.closed } := by
          simp [stepT, hget, hact, href, applySchedule, hcode]
        rw [hstep]; exact ⟨href, rfl⟩
      | stale =>
        have hstep : stepT s (TEvent.closeEvt i code false)
            = { s with socks := s.socks.set i SockPhase.closed } := by
          simp [stepT, hget, hact, href, applySchedule, hcode]
        rw [hstep]; exact ⟨href, rfl⟩
  · intro b evs i hget
    obtain ⟨hA, hB, hC, hD⟩ := invT_runT b evs
    cases href : (runT b evs).ref with
    | empty =>
      have hstep : stepT (runT b evs) (TEvent.openEvt i)
          = { runT b evs with
                socks := (runT b evs).socks.set i SockPhase.opened } := by
        simp [stepT, hget, href]
      rw [hstep]
      refine ⟨href, ?_⟩
      rw [href] at hA
      simpa [refLive] using hA
    | live d =>
      exfalso
      have h0 : inflightCount (runT b evs) = 0 := hC (by rw [href]; rfl)
      have h1 : 1 ≤ inflightCount (runT b evs) :=
        List.countP_pos_iff.2 ⟨SockPhase.connecting, List.getElem?_mem hget, rfl⟩
      omega
    | stale =>
      have hstep : stepT (runT b evs) (TEvent.openEvt i)
          = { runT b evs with
                socks := (runT b evs).socks.set i SockPhase.opened,
                ref := RefCell.empty } := by
        simp [stepT, hget, href]
      rw [hstep]
      refine ⟨rfl, ?_⟩
      rw [href] at hA
      simpa [refLive] using hA
  · intro b evs
    obtain ⟨hA, hB, -, -⟩ := invT_runT b evs
    constructor
    · rw [hA]
      cases refLive (runT b evs).ref <;> simp
    · calc openedCount (runT b evs)
          ≤ inflightCount (runT b evs) := by
            refine List.countP_mono_left ?_
            intro x _ hx
            rw [of_decide_eq_true hx]
            rfl
        _ ≤ 1 := hB

/-- Witness for C7 at concrete traces: the first socket of a fresh
mount dies with code 1006 (scheduling the single 3-second reconnect),
the timer fires, and the replacement socket opens, clearing the ref. -/
theorem C7_reconnect_discipline_witness :
    (stepT (runT false []) (TEvent.closeEvt 0 1000 false)).pending
      = (runT false []).pending ∧
    (stepT (runT false []) (TEvent.closeEvt 0 1006 false)).ref
      = RefCell.live 3000 ∧
    (stepT (runT false [TEvent.closeEvt 0 1006 false, TEvent.timerFire])
        (TEvent.openEvt 1)).pending = 0 ∧
    (runT false [TEvent.closeEvt 0 1006 false, TEvent.timerFire]).pending ≤ 1 ∧
    openedCount (runT false [TEvent.closeEvt 0 1006 false, TEvent.timerFire]) ≤ 1 := by
  obtain ⟨h1, h2, h3, h4⟩ := C7_reconnect_discipline
  refine ⟨(h1 (runT false []) 0).2, ?_, ?_, ?_, ?_⟩
  · exact ((h2 (runT false []) 0 1006 (by decide)
      ⟨SockPhase.connecting, by decide, rfl⟩).1 (by decide)).1
  · exact (h3 false [TEvent.closeEvt 0 1006 false, TEvent.timerFire] 1
      (by decide)).2
  · exact (h4 false [TEvent.closeEvt 0 1006 false, TEvent.timerFire]).1
  · exact (h4 false [TEvent.closeEvt 0 1006 false, TEvent.timerFire]).2
